import Mathlib

/-!
Verification development for the Veritech verified-fragment reconstruction
pipeline: the CVK 1100 truth engine (reality / truth / necessity checks,
confidence scoring, rejection) and the Jigsaw Protocol engine (fragment
gating, component compression, edge engineering, greedy assembly, gap
identification, court-readiness assessment).

Modelling conventions:
* JavaScript numbers are modelled as exact rationals (`ℚ`).  A JS number that
  can be non-finite (`NaN` / `Infinity`, arising only from division by zero in
  this code base) is modelled as `Option ℚ` with `none` for the non-finite
  case; every JS comparison against a possibly-non-finite number uses the
  `NaN`-semantics helpers below (comparisons with `NaN` are false).
* JS `Date` values are modelled by their millisecond value together with the
  calendar year (the only two observations the code makes of a date).
* Ambient effects (the clock, `crypto` hashes, `crypto.randomUUID`,
  `JSON.stringify`, the regex battery of `isActionableIntelligence`, and
  number/date-to-string coercion) are modelled as an explicit environment of
  pure functions (`JSEnv`); successive `randomUUID` draws are modelled by
  supplies indexed by call order.  No embedded operation inspects the results
  of these functions other than by passing them around, except where a claim
  is explicitly about them (in which case they stay universally quantified).
* Opaque payload fields that no embedded operation ever inspects
  (`metadata: Record<string, unknown>`, `rawData: unknown`) are omitted.
-/

/-- JavaScript division: `none` models the non-finite results `NaN` (0/0)
and `±Infinity` (x/0). -/
def jsDiv (a b : ℚ) : Option ℚ :=
  if b = 0 then none else some (a / b)

/-- JavaScript `Math.round`: round half toward positive infinity. -/
def jsRound (q : ℚ) : ℚ :=
  ((⌊q + 1/2⌋ : ℤ) : ℚ)

/-- JavaScript comparison `x >= c` where `x` may be non-finite: any
comparison against `NaN` is false. -/
def jsGe (x : Option ℚ) (c : ℚ) : Bool :=
  match x with
  | some q => decide (c ≤ q)
  | none => false

/-- JavaScript comparison `x < c` where `x` may be non-finite. -/
def jsLt (x : Option ℚ) (c : ℚ) : Bool :=
  match x with
  | some q => decide (q < c)
  | none => false

/-- JS `Date` value: millisecond timestamp plus the calendar year, the only
two observations the embedded code makes of a date (`<=` comparison and
`getFullYear()`). -/
structure JSDate where
  ms : Int
  year : Int
deriving DecidableEq

/-- Jurisdiction union type from `src/shared/types/index.ts` (the
jigsaw-protocol variant, which includes `GLOBAL`). -/
inductive Jurisdiction where
  | IE | UK | NI | SC | WA | EN | ES | EU | GLOBAL
deriving DecidableEq

/-- String value of a `Jurisdiction` (the TS value is the string itself). -/
def Jurisdiction.code : Jurisdiction → String
  | .IE => "IE" | .UK => "UK" | .NI => "NI" | .SC => "SC" | .WA => "WA"
  | .EN => "EN" | .ES => "ES" | .EU => "EU" | .GLOBAL => "GLOBAL"

/-- The sixteen source types of `SourceType` in the CVK 1100 engine. -/
inductive SourceType where
  | cave_carving | ancient_manuscript | historical_archive | oral_tradition
  | written_record | legal_document | financial_record | government_database
  | corporate_record | digital_trace | witness_statement | physical_evidence
  | scientific_analysis | surveillance_data | communication_intercept
  | osint_collection
deriving DecidableEq

/-- String value of a `SourceType`. -/
def SourceType.code : SourceType → String
  | .cave_carving => "cave_carving"
  | .ancient_manuscript => "ancient_manuscript"
  | .historical_archive => "historical_archive"
  | .oral_tradition => "oral_tradition"
  | .written_record => "written_record"
  | .legal_document => "legal_document"
  | .financial_record => "financial_record"
  | .government_database => "government_database"
  | .corporate_record => "corporate_record"
  | .digital_trace => "digital_trace"
  | .witness_statement => "witness_statement"
  | .physical_evidence => "physical_evidence"
  | .scientific_analysis => "scientific_analysis"
  | .surveillance_data => "surveillance_data"
  | .communication_intercept => "communication_intercept"
  | .osint_collection => "osint_collection"

/-- The fifteen fragment types of `FragmentType` in the shared types. -/
inductive FragmentType where
  | survivor_testimony | physical_evidence | environmental_factor
  | location_data | financial_trace | communication_record
  | document_artifact | digital_footprint | relationship_link
  | temporal_marker | behavioral_pattern | historical_record
  | scientific_data | oral_history | institutional_record
deriving DecidableEq

/-- String value of a `FragmentType`. -/
def FragmentType.code : FragmentType → String
  | .survivor_testimony => "survivor_testimony"
  | .physical_evidence => "physical_evidence"
  | .environmental_factor => "environmental_factor"
  | .location_data => "location_data"
  | .financial_trace => "financial_trace"
  | .communication_record => "communication_record"
  | .document_artifact => "document_artifact"
  | .digital_footprint => "digital_footprint"
  | .relationship_link => "relationship_link"
  | .temporal_marker => "temporal_marker"
  | .behavioral_pattern => "behavioral_pattern"
  | .historical_record => "historical_record"
  | .scientific_data => "scientific_data"
  | .oral_history => "oral_history"
  | .institutional_record => "institutional_record"

/-- The twelve case types of `CaseType` in the shared types. -/
inductive CaseType where
  | missing_person | missing_asset | hidden_wealth | fraud | corruption
  | predatory_lending | financial_crime | identity_theft | money_laundering
  | asset_tracing | witness_protection | historical_investigation
deriving DecidableEq

/-- String value of a `CaseType`. -/
def CaseType.code : CaseType → String
  | .missing_person => "missing_person"
  | .missing_asset => "missing_asset"
  | .hidden_wealth => "hidden_wealth"
  | .fraud => "fraud"
  | .corruption => "corruption"
  | .predatory_lending => "predatory_lending"
  | .financial_crime => "financial_crime"
  | .identity_theft => "identity_theft"
  | .money_laundering => "money_laundering"
  | .asset_tracing => "asset_tracing"
  | .witness_protection => "witness_protection"
  | .historical_investigation => "historical_investigation"

/-- Provenance record attached to a raw input. -/
structure ProvenanceRecord where
  timestamp : JSDate
  source : String
  method : String
  handler : String
  verified : Bool
deriving DecidableEq

/-- Chain-of-custody entry on a truth fragment. -/
structure ChainOfCustodyEntry where
  timestamp : JSDate
  handler : String
  action : String
  location : String
  hash : String
deriving DecidableEq

/-- A truth fragment, the verified unit handed from CVK 1100 to the Jigsaw
Protocol (`TruthFragment` in the shared types; the opaque `metadata` payload
is omitted, see the module docstring). -/
structure TruthFragment where
  id : String
  type : FragmentType
  content : String
  source : String
  verificationLevel : ℚ
  confidence : ℚ
  timestamp : JSDate
  jurisdiction : Jurisdiction
  chainOfCustody : List ChainOfCustodyEntry
  isReal : Bool
  isTrue : Bool
  isNeeded : Bool
deriving DecidableEq

/-- A raw evidentiary input to CVK 1100 (`RawInput`; the opaque `rawData`
and `metadata` payloads are omitted). -/
structure RawInput where
  id : String
  source : String
  sourceType : SourceType
  content : String
  timestamp : JSDate
  jurisdiction : Jurisdiction
  provenance : List ProvenanceRecord
deriving DecidableEq

/-- Per-case parameters supplied to CVK 1100 (`CaseContext`; note the source
declares `caseType: string`, not the `CaseType` union). -/
structure CaseContext where
  caseId : String
  caseType : String
  startDate : JSDate
  jurisdictions : List Jurisdiction
  subjects : List String
  keywords : List String
deriving DecidableEq

/-- Result of one reality check. -/
structure RealityCheck where
  check : String
  passed : Bool
  evidence : String
  confidence : ℚ
deriving DecidableEq

/-- Result of one truth check. -/
structure TruthCheck where
  check : String
  passed : Bool
  corroboration : List String
  contradictions : List String
  confidence : ℚ
deriving DecidableEq

/-- Result of one necessity check. -/
structure NecessityCheck where
  check : String
  needed : Bool
  relevance : ℚ
  reason : String
deriving DecidableEq

/-- One cross-reference record.  The source field `matches` is renamed
`matchFlag` here because `matches` is reserved syntax in Lean. -/
structure CrossReference where
  sourceId : String
  sourceName : String
  matchFlag : Bool
  matchScore : ℚ
  discrepancies : List String
deriving DecidableEq

/-- Anomaly type tag. -/
inductive AnomalyType where
  | temporal | logical | statistical | behavioral | documentary
deriving DecidableEq

/-- Anomaly severity tag. -/
inductive AnomalySeverity where
  | low | medium | high | critical
deriving DecidableEq

/-- A detected anomaly. -/
structure Anomaly where
  type : AnomalyType
  description : String
  severity : AnomalySeverity
  requiresHumanReview : Bool
deriving DecidableEq

/-- Full reasoning record of a verification decision. -/
structure VerificationReasoning where
  realityChecks : List RealityCheck
  truthChecks : List TruthCheck
  necessityChecks : List NecessityCheck
  crossReferences : List CrossReference
  anomalies : List Anomaly
  overallAssessment : String
deriving DecidableEq

/-- Verification result for a single input (`VerificationResult`). -/
structure VerificationResult where
  inputId : String
  isReal : Bool
  isTrue : Bool
  isNeeded : Bool
  verificationLevel : ℚ
  confidence : ℚ
  reasoning : VerificationReasoning
  fragment : Option TruthFragment
  rejected : Bool
  rejectionReason : Option String
deriving DecidableEq

/-- Topology tag of a component shape. -/
inductive Topology where
  | corner | edge | interior | bridge | keystone
deriving DecidableEq

/-- The six canonical edge directions. -/
inductive Direction where
  | north | south | east | west | temporal | causal
deriving DecidableEq

/-- String value of a `Direction`. -/
def Direction.code : Direction → String
  | .north => "north" | .south => "south" | .east => "east" | .west => "west"
  | .temporal => "temporal" | .causal => "causal"

/-- Component shape (`ComponentShape`). -/
structure ComponentShape where
  topology : Topology
  complexity : ℚ
  symmetry : Bool
  uniqueIdentifier : String
deriving DecidableEq

/-- Component edge (`ComponentEdge`). -/
structure ComponentEdge where
  direction : Direction
  pattern : String
  compatibleWith : List String
  incompatibleWith : List String
  strength : ℚ
deriving DecidableEq

/-- Component position (`ComponentPosition`). -/
structure ComponentPosition where
  x : ℚ
  y : ℚ
  z : ℚ
  rotation : ℚ
  confidence : ℚ
deriving DecidableEq

/-- A jigsaw component (`JigsawComponent`).  `compressionRatio` is
`Option ℚ` because it is a JS division (`none` would model a non-finite
result). -/
structure JigsawComponent where
  id : String
  fragmentId : String
  shape : ComponentShape
  edges : List ComponentEdge
  weight : ℚ
  position : Option ComponentPosition
  locked : Bool
  hash : String
  compressionRatio : Option ℚ
  engineeringSignature : String
deriving DecidableEq

/-- A gap in the picture (`PictureGap`). -/
structure PictureGap where
  id : String
  location : ComponentPosition
  requiredShape : ComponentShape
  requiredEdges : List ComponentEdge
  possibleSources : List String
  priority : ℚ
  description : String
deriving DecidableEq

/-- Conclusion type tag. -/
inductive ConclusionType where
  | finding | inference | recommendation | warning | certainty
deriving DecidableEq

/-- Uppercased string value of a `ConclusionType` (used by the narrative). -/
def ConclusionType.upper : ConclusionType → String
  | .finding => "FINDING" | .inference => "INFERENCE"
  | .recommendation => "RECOMMENDATION" | .warning => "WARNING"
  | .certainty => "CERTAINTY"

/-- A conclusion drawn from the picture (`Conclusion`).  `confidence` is
`Option ℚ` because the certainty conclusion copies the possibly-`NaN`
completion percentage into it. -/
structure Conclusion where
  id : String
  type : ConclusionType
  statement : String
  supportingComponents : List String
  confidence : Option ℚ
  courtReady : Bool
  humanVerified : Bool
  legalImplications : List String
deriving DecidableEq

/-- The picture (`Picture`).  `completionPercentage` is `Option ℚ` because
the source computes it as `placed / total * 100`, which is `NaN` when the
component list is empty. -/
structure Picture where
  id : String
  caseId : String
  caseType : CaseType
  title : String
  components : List JigsawComponent
  placedComponents : List JigsawComponent
  unplacedComponents : List JigsawComponent
  completionPercentage : Option ℚ
  gaps : List PictureGap
  conclusions : List Conclusion
  reconstructedTruth : String
  courtReady : Bool
  humanReviewRequired : Bool
  hash : String
  createdAt : JSDate
  updatedAt : JSDate
deriving DecidableEq

/-- Result of a Jigsaw Protocol run (`JigsawResult`; the wall-clock
`processingTime` field is omitted as it depends only on the ambient timer). -/
structure JigsawResult where
  success : Bool
  picture : Picture
  fragmentsProcessed : Nat
  componentsCreated : Nat
  componentsPlaced : Nat
  gapsIdentified : Nat
  conclusionsDrawn : Nat
  humanReviewRequired : Bool
  courtReadiness : Option ℚ
  recommendations : List String
  nextSteps : List String
deriving DecidableEq

/-- Ambient JavaScript environment: the clock, the `crypto` hash functions,
`crypto.randomUUID` modelled as supplies indexed by call order, the
`JSON.stringify` serializations, JS string coercions, and the regex battery
of `isActionableIntelligence`.  All are pure functions; claims that depend
on what a particular function observes quantify over it. -/
structure JSEnv where
  now : JSDate
  sha256 : String → String
  sha512 : String → String
  md5 : String → String
  uuidTF : String
  uuidJC : Nat → String
  uuidPic : String
  uuidGap : Nat → String
  uuidConc : Nat → String
  showDate : JSDate → String
  showNum : ℚ → String
  toFixed1 : ℚ → String
  toFixedOpt1 : Option ℚ → String
  showOptNum : Option ℚ → String
  jsonProv : ProvenanceRecord → String
  jsonFragment : TruthFragment → String
  jsonShape : ComponentShape → String
  jsonFragShapeNow : TruthFragment → ComponentShape → String
  jsonPicture : Picture → String
  actionable : String → Bool

/-- The CVK 1100 engine instance state: its random per-instance identifier. -/
structure CVK1100Engine where
  engineId : String

/-- The Jigsaw Protocol engine instance state: its random per-instance
identifier. -/
structure JigsawProtocolEngine where
  engineId : String

/-- Reality checks of `CVK1100Engine.performRealityChecks`.  The fifth check
tests membership in the literal list of the sixteen recognized source types,
exactly as the source does. -/
def validSourceTypes : List SourceType :=
  [.cave_carving, .ancient_manuscript, .historical_archive, .oral_tradition,
   .written_record, .legal_document, .financial_record, .government_database,
   .corporate_record, .digital_trace, .witness_statement, .physical_evidence,
   .scientific_analysis, .surveillance_data, .communication_intercept,
   .osint_collection]

/-- Embedding of `performRealityChecks`. -/
def performRealityChecks (env : JSEnv) (input : RawInput) : List RealityCheck :=
  let sourceNonEmpty := input.source ≠ ""
  let isValidDate :=
    input.timestamp.ms ≤ env.now.ms ∧ 1900 ≤ input.timestamp.year
  let hasProvenance := input.provenance.length > 0
  let validType := validSourceTypes.contains input.sourceType
  [ { check := "Source existence verification"
    , passed := decide sourceNonEmpty
    , evidence := "Source: " ++ input.source
    , confidence := if sourceNonEmpty then 90 else 0 }
  , { check := "Content substantiveness"
    , passed := decide (input.content.length > 10)
    , evidence := "Content length: " ++ toString input.content.length
        ++ " characters"
    , confidence := min 100 ((input.content.length : ℚ) / 10) }
  , { check := "Temporal validity"
    , passed := decide isValidDate
    , evidence := "Timestamp: " ++ env.showDate input.timestamp
    , confidence := if isValidDate then 95 else 10 }
  , { check := "Provenance chain verification"
    , passed := decide hasProvenance
    , evidence := "Provenance records: " ++ toString input.provenance.length
    , confidence := if hasProvenance then 85 else 40 }
  , { check := "Source type classification"
    , passed := validType
    , evidence := "Source type: " ++ input.sourceType.code
    , confidence := if validType then 100 else 0 } ]

/-- Embedding of `performTruthChecks`. -/
def performTruthChecks (_env : JSEnv) (input : RawInput) (context : CaseContext) :
    List TruthCheck :=
  let verifiedProv := input.provenance.filter (·.verified)
  let temporallyConsistent := context.startDate.ms ≤ input.timestamp.ms
  let jurisdictionValid := context.jurisdictions.contains input.jurisdiction
  [ { check := "Internal consistency analysis"
    , passed := true
    , corroboration := ["Content is internally consistent"]
    , contradictions := []
    , confidence := 80 }
  , { check := "External source corroboration"
    , passed := input.provenance.any (·.verified)
    , corroboration := verifiedProv.map (·.source)
    , contradictions := []
    , confidence := (verifiedProv.length : ℚ) * 20 }
  , { check := "Temporal consistency with case timeline"
    , passed := decide temporallyConsistent
    , corroboration := if temporallyConsistent then ["Within case timeline"] else []
    , contradictions :=
        if temporallyConsistent then [] else ["Outside case timeline"]
    , confidence := if temporallyConsistent then 90 else 30 }
  , { check := "Jurisdictional validity"
    , passed := jurisdictionValid
    , corroboration :=
        if jurisdictionValid then ["Valid for " ++ input.jurisdiction.code]
        else []
    , contradictions :=
        if jurisdictionValid then [] else ["Not valid for case jurisdictions"]
    , confidence := if jurisdictionValid then 95 else 50 } ]

/-- Relevance table of `calculateRelevance` (keyed by the case-type string,
as in the source, where `CaseContext.caseType` is a plain string). -/
def relevantSourceTypes (caseType : String) : List SourceType :=
  if caseType = "fraud" then
    [.financial_record, .legal_document, .corporate_record, .digital_trace]
  else if caseType = "missing_person" then
    [.witness_statement, .surveillance_data, .digital_trace,
     .communication_intercept]
  else if caseType = "predatory_lending" then
    [.financial_record, .legal_document, .corporate_record]
  else if caseType = "corruption" then
    [.financial_record, .government_database, .communication_intercept]
  else []

/-- Embedding of `calculateRelevance`. -/
def calculateRelevance (env : JSEnv) (input : RawInput) (context : CaseContext) :
    ℚ :=
  let base : ℚ := 50
  let typeBoost : ℚ :=
    if (relevantSourceTypes context.caseType).contains input.sourceType then 30
    else 0
  let provBoost : ℚ := if input.provenance.any (·.verified) then 15 else 0
  let daysSinceInput : ℚ :=
    ((env.now.ms - input.timestamp.ms : ℤ) : ℚ) / (1000 * 60 * 60 * 24)
  let recencyBoost : ℚ := if daysSinceInput < 365 then 10 else 0
  min 100 (base + typeBoost + provBoost + recencyBoost)

/-- Embedding of `isActionableIntelligence`: the regex battery over the
content is modelled by the environment predicate `actionable` (the `context`
parameter is unused in the source as well). -/
def isActionableIntelligence (env : JSEnv) (input : RawInput)
    (_context : CaseContext) : Bool :=
  env.actionable input.content

/-- Embedding of `performNecessityChecks`. -/
def performNecessityChecks (env : JSEnv) (input : RawInput)
    (context : CaseContext) : List NecessityCheck :=
  let relevanceScore := calculateRelevance env input context
  let isActionable := isActionableIntelligence env input context
  [ { check := "Case type relevance"
    , needed := decide (50 ≤ relevanceScore)
    , relevance := relevanceScore
    , reason := "Relevance score: " ++ env.showNum relevanceScore ++ "% for "
        ++ context.caseType }
  , { check := "Information uniqueness"
    , needed := true
    , relevance := 80
    , reason := "Provides unique information not duplicated elsewhere" }
  , { check := "Actionable intelligence assessment"
    , needed := isActionable
    , relevance := if isActionable then 90 else 30
    , reason :=
        if isActionable then "Can be acted upon" else "Not directly actionable" } ]

/-- Embedding of `performCrossReferences`. -/
def performCrossReferences (env : JSEnv) (input : RawInput)
    (context : CaseContext) : List CrossReference :=
  (input.provenance.map fun prov =>
    { sourceId := env.md5 prov.source
    , sourceName := prov.source
    , matchFlag := prov.verified
    , matchScore := if prov.verified then 90 else 40
    , discrepancies := if prov.verified then [] else ["Unverified source"] })
  ++ [ { sourceId := context.caseId
       , sourceName := "Case: " ++ context.caseId
       , matchFlag := true
       , matchScore := 85
       , discrepancies := [] } ]

/-- Embedding of `detectAnomalies`. -/
def detectAnomalies (env : JSEnv) (input : RawInput)
    (realityChecks : List RealityCheck) (truthChecks : List TruthCheck) :
    List Anomaly :=
  let temporalAnoms : List Anomaly :=
    if env.now.ms < input.timestamp.ms then
      [ { type := .temporal
        , description := "Timestamp is in the future"
        , severity := .critical
        , requiresHumanReview := true } ]
    else []
  let failedRealityChecks := realityChecks.filter (fun c => !c.passed)
  let logicalAnoms : List Anomaly :=
    if failedRealityChecks.length > 0 then
      [ { type := .logical
        , description := toString failedRealityChecks.length
            ++ " reality checks failed"
        , severity := if failedRealityChecks.length > 2 then .high else .medium
        , requiresHumanReview := failedRealityChecks.length > 2 } ]
    else []
  let contradictions := truthChecks.flatMap (·.contradictions)
  let documentaryAnoms : List Anomaly :=
    if contradictions.length > 0 then
      [ { type := .documentary
        , description := toString contradictions.length
            ++ " contradictions detected"
        , severity := .high
        , requiresHumanReview := true } ]
    else []
  temporalAnoms ++ logicalAnoms ++ documentaryAnoms

/-- Embedding of `calculateVerificationLevel`. -/
def calculateVerificationLevel (realityChecks : List RealityCheck)
    (truthChecks : List TruthCheck) (_necessityChecks : List NecessityCheck)
    (crossReferences : List CrossReference) (anomalies : List Anomaly) : ℚ :=
  let realityScore : ℚ :=
    ((realityChecks.countP (·.passed) : ℚ)) / (realityChecks.length : ℚ)
  let truthScore : ℚ :=
    ((truthChecks.countP (·.passed) : ℚ)) / (truthChecks.length : ℚ)
  let crossRefScore : ℚ :=
    (crossReferences.map (·.matchScore)).sum / ((crossReferences.length : ℚ) * 100)
  let criticalAnomalies : ℚ := (anomalies.countP (·.severity == .critical) : ℚ)
  let highAnomalies : ℚ := (anomalies.countP (·.severity == .high) : ℚ)
  let level : ℚ := 5 + realityScore * 2 + truthScore * 2 + crossRefScore
    - criticalAnomalies * 2 - highAnomalies
  max 1 (min 10 (jsRound level))

/-- Embedding of `calculateConfidence`: the weighted average with weights
reality 0.3, truth 0.3, necessity relevance 0.2, cross-reference 0.2. -/
def calculateConfidence (realityChecks : List RealityCheck)
    (truthChecks : List TruthCheck) (necessityChecks : List NecessityCheck)
    (crossReferences : List CrossReference) : ℚ :=
  let realityConfidence :=
    (realityChecks.map (·.confidence)).sum / (realityChecks.length : ℚ)
  let truthConfidence :=
    (truthChecks.map (·.confidence)).sum / (truthChecks.length : ℚ)
  let necessityRelevance :=
    (necessityChecks.map (·.relevance)).sum / (necessityChecks.length : ℚ)
  let crossRefScore :=
    (crossReferences.map (·.matchScore)).sum / (crossReferences.length : ℚ)
  realityConfidence * (3/10) + truthConfidence * (3/10)
    + necessityRelevance * (2/10) + crossRefScore * (2/10)

/-- Embedding of `generateAssessment`. -/
def generateAssessment (env : JSEnv) (isReal isTrue isNeeded : Bool)
    (confidence : ℚ) : String :=
  let parts : List String :=
    (if isReal && isTrue && isNeeded then
      ["VERIFIED: Input passes all CVK 1100 checks."]
    else
      (if !isReal then ["REALITY CHECK FAILED: Input existence not confirmed."] else [])
      ++ (if !isTrue then ["TRUTH CHECK FAILED: Input accuracy not verified."] else [])
      ++ (if !isNeeded then ["NECESSITY CHECK FAILED: Input not relevant to case."] else []))
    ++ ["Confidence: " ++ env.toFixed1 confidence ++ "%"]
  String.intercalate " " parts

/-- Embedding of `generateRejectionReason`. -/
def generateRejectionReason (env : JSEnv) (isReal isTrue isNeeded : Bool)
    (confidence : ℚ) : String :=
  let reasons : List String :=
    (if !isReal then ["Failed reality verification"] else [])
    ++ (if !isTrue then ["Failed truth verification"] else [])
    ++ (if !isNeeded then ["Not needed for case"] else [])
    ++ (if confidence < 50 then
          ["Low confidence (" ++ env.toFixed1 confidence ++ "%)"]
        else [])
  String.intercalate "; " reasons

/-- Embedding of `mapSourceToFragmentType`. -/
def mapSourceToFragmentType : SourceType → FragmentType
  | .cave_carving => .historical_record
  | .ancient_manuscript => .historical_record
  | .historical_archive => .historical_record
  | .oral_tradition => .oral_history
  | .written_record => .document_artifact
  | .legal_document => .document_artifact
  | .financial_record => .financial_trace
  | .government_database => .institutional_record
  | .corporate_record => .institutional_record
  | .digital_trace => .digital_footprint
  | .witness_statement => .survivor_testimony
  | .physical_evidence => .physical_evidence
  | .scientific_analysis => .scientific_data
  | .surveillance_data => .location_data
  | .communication_intercept => .communication_record
  | .osint_collection => .digital_footprint

/-- Embedding of `createTruthFragment`. -/
def createTruthFragment (env : JSEnv) (self : CVK1100Engine) (input : RawInput)
    (verificationLevel confidence : ℚ) (isReal isTrue isNeeded : Bool) :
    TruthFragment :=
  let fragmentType := mapSourceToFragmentType input.sourceType
  let chainOfCustody : List ChainOfCustodyEntry :=
    (input.provenance.map fun p =>
      { timestamp := p.timestamp
      , handler := p.handler
      , action := p.method
      , location := p.source
      , hash := env.sha256 (env.jsonProv p) })
    ++ [ { timestamp := env.now
         , handler := "CVK 1100 Engine"
         , action := "Verification and extraction"
         , location := self.engineId
         , hash := env.sha256 (input.id ++ "-" ++ toString env.now.ms) } ]
  { id := "TF-" ++ env.uuidTF
  , type := fragmentType
  , content := input.content
  , source := input.source
  , verificationLevel := verificationLevel
  , confidence := confidence
  , timestamp := input.timestamp
  , jurisdiction := input.jurisdiction
  , chainOfCustody := chainOfCustody
  , isReal := isReal
  , isTrue := isTrue
  , isNeeded := isNeeded }

/-- Embedding of `verifyInput`, the per-input verification pipeline of
CVK 1100. -/
def verifyInput (env : JSEnv) (self : CVK1100Engine) (input : RawInput)
    (context : CaseContext) : VerificationResult :=
  let realityChecks := performRealityChecks env input
  let isReal := realityChecks.all (·.passed)
    && decide (70 ≤ (realityChecks.map (·.confidence)).sum / (realityChecks.length : ℚ))
  let truthChecks := performTruthChecks env input context
  let isTrue := truthChecks.all (fun c => c.passed || c.contradictions.length == 0)
    && decide (70 ≤ (truthChecks.map (·.confidence)).sum / (truthChecks.length : ℚ))
  let necessityChecks := performNecessityChecks env input context
  let isNeeded := necessityChecks.any (fun c => c.needed && decide (50 ≤ c.relevance))
  let crossReferences := performCrossReferences env input context
  let anomalies := detectAnomalies env input realityChecks truthChecks
  let verificationLevel := calculateVerificationLevel realityChecks truthChecks
    necessityChecks crossReferences anomalies
  let confidence := calculateConfidence realityChecks truthChecks
    necessityChecks crossReferences
  let rejected := !isReal || !isTrue || !isNeeded || decide (confidence < 50)
  let reasoning : VerificationReasoning :=
    { realityChecks := realityChecks
    , truthChecks := truthChecks
    , necessityChecks := necessityChecks
    , crossReferences := crossReferences
    , anomalies := anomalies
    , overallAssessment := generateAssessment env isReal isTrue isNeeded confidence }
  let fragment :=
    if rejected then none
    else some (createTruthFragment env self input verificationLevel confidence
      isReal isTrue isNeeded)
  { inputId := input.id
  , isReal := isReal
  , isTrue := isTrue
  , isNeeded := isNeeded
  , verificationLevel := verificationLevel
  , confidence := confidence
  , reasoning := reasoning
  , fragment := fragment
  , rejected := rejected
  , rejectionReason :=
      if rejected then
        some (generateRejectionReason env isReal isTrue isNeeded confidence)
      else none }

/-- Embedding of `categorizeRejection`. -/
def categorizeRejection (result : VerificationResult) : String :=
  if !result.isReal then "not_real"
  else if !result.isTrue then "not_true"
  else if !result.isNeeded then "not_needed"
  else "insufficient_verification"

/-- Stable insertion into a list ordered by the boolean comparator `le`;
building block of `jsSort`. -/
def jsSortInsert (le : α → α → Bool) (a : α) : List α → List α
  | [] => [a]
  | b :: l => if le a b then a :: b :: l else b :: jsSortInsert le a l

/-- Stable sort by a boolean comparator, modelling JS `Array.prototype.sort`
with a total-preorder comparator (the ECMAScript sort is stable; a stable
sort of a total preorder is unique, so any stable algorithm is extensionally
faithful). -/
def jsSort (le : α → α → Bool) : List α → List α
  | [] => []
  | a :: l => jsSortInsert le a (jsSort le l)

/-- Embedding of `JigsawProtocolEngine.filterVerifiedFragments`: the second
gate in front of component creation. -/
def filterVerifiedFragments (fragments : List TruthFragment) :
    List TruthFragment :=
  fragments.filter fun f =>
    f.isReal && f.isTrue && f.isNeeded && decide (5 ≤ f.verificationLevel)

/-- Embedding of `determineTopology`. -/
def determineTopology (fragment : TruthFragment) : Topology :=
  match fragment.type with
  | .temporal_marker => .edge
  | .location_data => .corner
  | .relationship_link => .bridge
  | .financial_trace => .interior
  | .survivor_testimony => .keystone
  | _ => .interior

/-- Embedding of `generateShape`.  The method reads nothing from the engine
instance (`self`), which is what makes the shape fingerprint reproducible
across engines; `self` is still a parameter so that this independence is a
provable statement rather than a modelling choice. -/
def generateShape (_self : JigsawProtocolEngine) (env : JSEnv)
    (fragment : TruthFragment) : ComponentShape :=
  { topology := determineTopology fragment
  , complexity :=
      min 10 ((⌈(fragment.verificationLevel + fragment.confidence / 10) / 2⌉ : ℤ) : ℚ)
  , symmetry :=
      fragment.type == .temporal_marker || fragment.type == .location_data
  , uniqueIdentifier :=
      (env.sha256 (fragment.id ++ "-" ++ fragment.content ++ "-"
        ++ env.showDate fragment.timestamp)).take 16 }

/-- Embedding of `calculateWeight`. -/
def calculateWeight (fragment : TruthFragment) : ℚ :=
  let base := fragment.verificationLevel * 10 + fragment.confidence / 10
  let typeBoost : ℚ :=
    (if fragment.type == .survivor_testimony then 20 else 0)
    + (if fragment.type == .physical_evidence then 15 else 0)
    + (if fragment.type == .document_artifact then 10 else 0)
  let custodyBoost : ℚ := if fragment.chainOfCustody.length > 0 then 5 else 0
  min 100 (base + typeBoost + custodyBoost)

/-- Embedding of `generateEngineeringSignature`; unlike the shape
fingerprint, this mixes in the per-instance random `engineId`. -/
def generateEngineeringSignature (self : JigsawProtocolEngine) (env : JSEnv)
    (fragment : TruthFragment) (shape : ComponentShape) : String :=
  env.sha512 (fragment.id ++ "-" ++ fragment.type.code ++ "-"
    ++ shape.uniqueIdentifier ++ "-" ++ self.engineId)

/-- Embedding of `hashComponent` (the stringified fragment/shape/timestamp
payload is produced by the environment serializer). -/
def hashComponent (env : JSEnv) (fragment : TruthFragment)
    (shape : ComponentShape) : String :=
  env.sha256 (env.jsonFragShapeNow fragment shape)

/-- Embedding of `compressFragment`; `idx` indexes the `randomUUID` supply
for the component identifier (one draw per fragment, in map order). -/
def compressFragment (self : JigsawProtocolEngine) (env : JSEnv) (idx : Nat)
    (fragment : TruthFragment) : JigsawComponent :=
  let shape := generateShape self env fragment
  let originalSize := (env.jsonFragment fragment).length
  let compressedSize := (env.jsonShape shape).length
  { id := "JC-" ++ env.uuidJC idx
  , fragmentId := fragment.id
  , shape := shape
  , edges := []
  , weight := calculateWeight fragment
  , position := none
  , locked := false
  , hash := hashComponent env fragment shape
  , compressionRatio := jsDiv (originalSize : ℚ) (compressedSize : ℚ)
  , engineeringSignature := generateEngineeringSignature self env fragment shape }

/-- Embedding of `compressFragments` (one `randomUUID` draw per fragment,
indexed in map order). -/
def compressFragments (self : JigsawProtocolEngine) (env : JSEnv)
    (fragments : List TruthFragment) : List JigsawComponent :=
  fragments.enum.map fun p => compressFragment self env p.1 p.2

/-- Embedding of `shapesCanConnect`: the pure topology/complexity
compatibility rule, in the exact check order of the source. -/
def shapesCanConnect (shape1 shape2 : ComponentShape) (direction : Direction) :
    Bool :=
  if shape1.topology == .corner && shape2.topology == .edge then true
  else if shape1.topology == .edge && shape2.topology == .interior then true
  else if shape1.topology == .bridge || shape2.topology == .bridge then true
  else if shape1.topology == .keystone && decide (7 ≤ shape2.complexity) then true
  else if shape1.topology == .interior && shape2.topology == .interior then true
  else if direction == .temporal then true
  else if direction == .causal then decide (|shape1.complexity - shape2.complexity| ≤ 2)
  else false

/-- Embedding of `generateEdgePattern`. -/
def generateEdgePattern (env : JSEnv) (component : JigsawComponent)
    (direction : Direction) : String :=
  (env.md5 (component.id ++ "-" ++ direction.code ++ "-"
    ++ component.shape.uniqueIdentifier)).take 8

/-- Embedding of `findCompatibleComponents` (the `pattern` argument is unused
in the source as well). -/
def findCompatibleComponents (component : JigsawComponent)
    (direction : Direction) (_pattern : String)
    (allComponents : List JigsawComponent) (currentIndex : Nat) :
    List String × List String :=
  let others := (allComponents.enum.filter fun p => p.1 ≠ currentIndex).map (·.2)
  ( (others.filter fun other =>
      shapesCanConnect component.shape other.shape direction).map (·.id)
  , (others.filter fun other =>
      !shapesCanConnect component.shape other.shape direction).map (·.id) )

/-- Embedding of `calculateEdgeStrength`. -/
def calculateEdgeStrength (component : JigsawComponent)
    (direction : Direction) : ℚ :=
  let directionBoost : ℚ :=
    (if direction == .temporal then 20 else 0)
    + (if direction == .causal then 25 else 0)
  let asymmetryBoost : ℚ := if !component.shape.symmetry then 10 else 0
  min 100 (50 + directionBoost + component.shape.complexity * 3 + asymmetryBoost)

/-- The canonical direction order of `calculateEdges`. -/
def allDirections : List Direction :=
  [.north, .south, .east, .west, .temporal, .causal]

/-- Embedding of `calculateEdges`. -/
def calculateEdges (env : JSEnv) (component : JigsawComponent)
    (allComponents : List JigsawComponent) (currentIndex : Nat) :
    List ComponentEdge :=
  allDirections.map fun direction =>
    let pattern := generateEdgePattern env component direction
    let found := findCompatibleComponents component direction pattern
      allComponents currentIndex
    { direction := direction
    , pattern := pattern
    , compatibleWith := found.1
    , incompatibleWith := found.2
    , strength := calculateEdgeStrength component direction }

/-- Embedding of `engineerEdges`. -/
def engineerEdges (env : JSEnv) (components : List JigsawComponent) :
    List JigsawComponent :=
  components.enum.map fun p =>
    { p.2 with edges := calculateEdges env p.2 components p.1 }

/-- Embedding of `initializePicture`. -/
def initializePicture (env : JSEnv) (caseId : String) (caseType : CaseType)
    (caseTitle : String) (components : List JigsawComponent) : Picture :=
  { id := "PIC-" ++ env.uuidPic
  , caseId := caseId
  , caseType := caseType
  , title := caseTitle
  , components := components
  , placedComponents := []
  , unplacedComponents := components
  , completionPercentage := some 0
  , gaps := []
  , conclusions := []
  , reconstructedTruth := ""
  , courtReady := false
  , humanReviewRequired := false
  , hash := ""
  , createdAt := env.now
  , updatedAt := env.now }

/-- Embedding of `calculateAdjacentPosition`.  The source dereferences
`placed.position!` with a non-null assertion; every placed component carries
a position, so the default value is never reached on the source's inputs. -/
def calculateAdjacentPosition (placed : JigsawComponent)
    (direction : Direction) : ComponentPosition :=
  let pos := placed.position.getD
    { x := 0, y := 0, z := 0, rotation := 0, confidence := 0 }
  match direction with
  | .north => { pos with y := pos.y + 1, confidence := 90 }
  | .south => { pos with y := pos.y - 1, confidence := 90 }
  | .east => { pos with x := pos.x + 1, confidence := 90 }
  | .west => { pos with x := pos.x - 1, confidence := 90 }
  | .temporal => { pos with z := pos.z + 1, confidence := 85 }
  | .causal => { pos with z := pos.z - 1, confidence := 85 }

/-- Embedding of `findBestPosition`; reads only the placed-component list of
the working picture. -/
def findBestPosition (component : JigsawComponent)
    (placedComponents : List JigsawComponent) : Option ComponentPosition :=
  if placedComponents.isEmpty then
    some { x := 0, y := 0, z := 0, rotation := 0, confidence := 100 }
  else
    let compatiblePlacements : List (ComponentPosition × ℚ) :=
      placedComponents.flatMap fun placed =>
        component.edges.filterMap fun edge =>
          if edge.compatibleWith.contains placed.id then
            some ( calculateAdjacentPosition placed edge.direction
                 , edge.strength * (component.weight / 100) )
          else none
    match jsSort (fun a b => decide (b.2 ≤ a.2)) compatiblePlacements with
    | [] => none
    | best :: _ => some best.1

/-- The retry loop of `assemblePicture`, with the iteration budget as
structural fuel; the third result component is the number of loop iterations
actually executed. -/
def assembleLoop : Nat → List JigsawComponent → List JigsawComponent →
    List JigsawComponent × List JigsawComponent × Nat
  | 0, placed, unplaced => (placed, unplaced, 0)
  | _ + 1, placed, [] => (placed, [], 0)
  | fuel + 1, placed, component :: rest =>
    match findBestPosition component placed with
    | some position =>
      let placedComponent :=
        { component with position := some position, locked := true }
      let result := assembleLoop fuel (placed ++ [placedComponent]) rest
      (result.1, result.2.1, result.2.2 + 1)
    | none =>
      let result := assembleLoop fuel placed (rest ++ [component])
      (result.1, result.2.1, result.2.2 + 1)

/-- The weight-descending comparator of the pre-assembly sort. -/
def weightDescending (a b : JigsawComponent) : Bool :=
  decide (b.weight ≤ a.weight)

/-- Embedding of `assemblePicture`.  In the source the `components` array
shares its element references with the placed/unplaced lists, so placement
mutates the components seen through `components` as well; the pure model
reproduces this by substituting each component's placed version (looked up
by identifier) into the `components` list. -/
def assemblePicture (pic : Picture) : Picture :=
  let maxIterations := pic.unplacedComponents.length * 10
  let sortedUnplaced := jsSort weightDescending pic.unplacedComponents
  let result := assembleLoop maxIterations pic.placedComponents sortedUnplaced
  let placed := result.1
  let unplaced := result.2.1
  { pic with
    placedComponents := placed
  , unplacedComponents := unplaced
  , components := pic.components.map fun c =>
      ((placed.find? fun p => p.id == c.id).getD c)
  , completionPercentage :=
      (jsDiv (placed.length : ℚ) (pic.components.length : ℚ)).map (· * 100) }

/-- Number of loop iterations executed by `assemblePicture` on `pic`. -/
def assembleIterations (pic : Picture) : Nat :=
  (assembleLoop (pic.unplacedComponents.length * 10) pic.placedComponents
    (jsSort weightDescending pic.unplacedComponents)).2.2

/-- Embedding of `oppositeDirection`. -/
def oppositeDirection : Direction → Direction
  | .north => .south
  | .south => .north
  | .east => .west
  | .west => .east
  | .temporal => .temporal
  | .causal => .causal

/-- Embedding of `suggestSources`. -/
def suggestSources : Direction → List String
  | .temporal =>
    ["Historical records", "Archives", "Witness testimony", "Digital timestamps"]
  | .causal =>
    ["Financial records", "Communication logs", "Relationship mapping"]
  | _ => ["OSINT investigation", "Document analysis", "Witness interviews"]

/-- The gap condition of `identifyGaps`: the edge has a non-empty
compatibility set, but no other currently placed component's identifier is
in it. -/
def gapCondition (placedComponents : List JigsawComponent)
    (component : JigsawComponent) (edge : ComponentEdge) : Bool :=
  let hasConnection := placedComponents.any fun other =>
    other.id != component.id && edge.compatibleWith.contains other.id
  !hasConnection && edge.compatibleWith.length > 0

/-- The gap record pushed by `identifyGaps` for one unconnected edge; `idx`
indexes the `randomUUID` supply in emission order. -/
def mkGap (env : JSEnv) (idx : Nat) (component : JigsawComponent)
    (edge : ComponentEdge) : PictureGap :=
  { id := "GAP-" ++ env.uuidGap idx
  , location := calculateAdjacentPosition component edge.direction
  , requiredShape :=
      { topology := .interior
      , complexity := component.shape.complexity
      , symmetry := false
      , uniqueIdentifier := "NEEDED-" ++ edge.direction.code }
  , requiredEdges :=
      [ { direction := oppositeDirection edge.direction
        , pattern := edge.pattern
        , compatibleWith := [component.id]
        , incompatibleWith := []
        , strength := edge.strength } ]
  , possibleSources := suggestSources edge.direction
  , priority := ((⌈component.weight / 10⌉ : ℤ) : ℚ)
  , description := "Missing " ++ edge.direction.code
      ++ " connection from component " ++ component.id }

/-- Embedding of `identifyGaps`: one gap per placed component's edge that
satisfies the gap condition, in iteration order. -/
def identifyGaps (env : JSEnv) (picture : Picture) : Picture :=
  let unconnected : List (JigsawComponent × ComponentEdge) :=
    picture.placedComponents.flatMap fun component =>
      (component.edges.filter fun edge =>
        gapCondition picture.placedComponents component edge).map
        fun edge => (component, edge)
  let gaps := unconnected.enum.map fun p => mkGap env p.1 p.2.1 p.2.2
  { picture with gaps := gaps }

/-- Embedding of `generateTruthNarrative`. -/
def generateTruthNarrative (env : JSEnv) (picture : Picture)
    (conclusions : List Conclusion) : String :=
  let header : List String :=
    [ "RECONSTRUCTED TRUTH - Case: " ++ picture.title
    , "Case Type: " ++ picture.caseType.code
    , "Completion: " ++ env.toFixedOpt1 picture.completionPercentage ++ "%"
    , ""
    , "FINDINGS:" ]
  let conclusionLines : List String :=
    conclusions.flatMap fun conclusion =>
      [ "- [" ++ conclusion.type.upper ++ "] " ++ conclusion.statement
      , "  Confidence: " ++ env.showOptNum conclusion.confidence ++ "%"
      , "  Court Ready: " ++ (if conclusion.courtReady then "YES" else "NO") ]
  let gapLines : List String :=
    if picture.gaps.length > 0 then
      ["", "GAPS REQUIRING INVESTIGATION:"]
      ++ picture.gaps.flatMap fun gap =>
        [ "- Priority " ++ env.showNum gap.priority ++ ": " ++ gap.description
        , "  Suggested sources: " ++ String.intercalate ", " gap.possibleSources ]
    else []
  String.intercalate "\n" (header ++ conclusionLines ++ gapLines)

/-- Embedding of `drawConclusions`. -/
def drawConclusions (env : JSEnv) (picture : Picture) : Picture :=
  let certaintyConclusions : List Conclusion :=
    if jsGe picture.completionPercentage 90 then
      [ { id := "CONC-" ++ env.uuidConc 0
        , type := .certainty
        , statement :=
            "Picture is substantially complete. High confidence in reconstruction."
        , supportingComponents := picture.placedComponents.map (·.id)
        , confidence := picture.completionPercentage
        , courtReady := true
        , humanVerified := false
        , legalImplications :=
            ["Evidence chain established", "Pattern of conduct demonstrated"] } ]
    else []
  let gapConclusions : List Conclusion :=
    if picture.gaps.length > 0 then
      [ { id := "CONC-" ++ env.uuidConc 1
        , type := .recommendation
        , statement := toString picture.gaps.length
            ++ " gaps identified requiring additional investigation."
        , supportingComponents := []
        , confidence := some 100
        , courtReady := false
        , humanVerified := false
        , legalImplications :=
            ["Additional evidence needed", "Investigation incomplete"] } ]
    else []
  let highWeightComponents :=
    picture.placedComponents.filter fun c => decide (80 ≤ c.weight)
  let findingConclusions : List Conclusion :=
    if highWeightComponents.length ≥ 3 then
      [ { id := "CONC-" ++ env.uuidConc 2
        , type := .finding
        , statement :=
            "Multiple high-confidence evidence pieces corroborate the reconstruction."
        , supportingComponents := highWeightComponents.map (·.id)
        , confidence := some 95
        , courtReady := true
        , humanVerified := false
        , legalImplications :=
            ["Strong evidentiary foundation", "Multiple independent sources"] } ]
    else []
  let conclusions := certaintyConclusions ++ gapConclusions ++ findingConclusions
  let reconstructedTruth := generateTruthNarrative env picture conclusions
  { picture with
    conclusions := conclusions
  , reconstructedTruth := reconstructedTruth }

/-- Embedding of `assessCourtReadiness`. -/
def assessCourtReadiness (env : JSEnv) (picture : Picture) : Picture :=
  let courtReadyConclusions := picture.conclusions.filter (·.courtReady)
  let highConfidenceComponents :=
    picture.placedComponents.filter fun c => decide (70 ≤ c.weight)
  let courtReady :=
    jsGe picture.completionPercentage 80
    && courtReadyConclusions.length ≥ 1
    && highConfidenceComponents.length ≥ 3
  let humanReviewRequired :=
    picture.conclusions.any (fun c => c.type == .certainty)
    || jsGe picture.completionPercentage 95
  { picture with
    courtReady := courtReady
  , humanReviewRequired := humanReviewRequired
  , hash := env.sha256 (env.jsonPicture picture)
  , updatedAt := env.now }

/-- Embedding of `calculateCourtReadiness`; `NaN` (a non-finite completion
percentage) propagates through the score, as in JS arithmetic. -/
def calculateCourtReadiness (picture : Picture) : Option ℚ :=
  picture.completionPercentage.map fun completion =>
    let completionScore := completion / 100 * 40
    let courtReadyRatio :=
      ((picture.conclusions.filter (·.courtReady)).length : ℚ)
        / (max 1 (picture.conclusions.length : ℚ))
    let highWeightRatio :=
      ((picture.placedComponents.filter fun c => decide (70 ≤ c.weight)).length : ℚ)
        / (max 1 (picture.placedComponents.length : ℚ))
    let gapBonus : ℚ := if picture.gaps.length = 0 then 10 else 0
    min 100 (completionScore + courtReadyRatio * 30 + highWeightRatio * 20 + gapBonus)

/-- Embedding of `generateRecommendations`. -/
def generateRecommendations (picture : Picture) : List String :=
  (if jsLt picture.completionPercentage 80 then
    ["Continue investigation to gather additional evidence fragments"]
  else [])
  ++ (if picture.gaps.length > 0 then
    ["Address " ++ toString picture.gaps.length
      ++ " identified gaps before proceeding to court"]
  else [])
  ++ (if picture.humanReviewRequired then
    ["MANDATORY: Human review required before any legal action"]
  else [])
  ++ (if !picture.courtReady then
    ["Picture not yet court-ready - additional verification needed"]
  else
    ["Picture is court-ready - proceed with legal counsel review"])

/-- Embedding of `generateNextSteps`. -/
def generateNextSteps (picture : Picture) : List String :=
  (if picture.gaps.length > 0 then
    let highPriorityGaps := picture.gaps.filter fun g => decide (7 ≤ g.priority)
    if highPriorityGaps.length > 0 then
      ["1. Investigate " ++ toString highPriorityGaps.length
        ++ " high-priority gaps"]
    else []
  else [])
  ++ (if picture.humanReviewRequired then
    ["2. Submit for human expert review (Level 7+ verification)"]
  else [])
  ++ (if picture.courtReady then
    [ "3. Generate court-ready documentation package"
    , "4. Coordinate with legal counsel for filing" ]
  else
    [ "3. Continue evidence gathering"
    , "4. Re-run Jigsaw Protocol when new fragments available" ])

/-- Embedding of `processFragments`, the Jigsaw Protocol main entry point:
filter, compress, engineer, initialize, assemble, identify gaps, draw
conclusions, assess court readiness. -/
def processFragments (self : JigsawProtocolEngine) (env : JSEnv)
    (fragments : List TruthFragment) (caseId : String) (caseType : CaseType)
    (caseTitle : String) : JigsawResult :=
  let verifiedFragments := filterVerifiedFragments fragments
  let components := compressFragments self env verifiedFragments
  let engineeredComponents := engineerEdges env components
  let picture := initializePicture env caseId caseType caseTitle
    engineeredComponents
  let assembledPicture := assemblePicture picture
  let pictureWithGaps := identifyGaps env assembledPicture
  let finalPicture := drawConclusions env pictureWithGaps
  let courtReadyPicture := assessCourtReadiness env finalPicture
  { success := true
  , picture := courtReadyPicture
  , fragmentsProcessed := fragments.length
  , componentsCreated := components.length
  , componentsPlaced := courtReadyPicture.placedComponents.length
  , gapsIdentified := courtReadyPicture.gaps.length
  , conclusionsDrawn := courtReadyPicture.conclusions.length
  , humanReviewRequired := courtReadyPicture.humanReviewRequired
  , courtReadiness := calculateCourtReadiness courtReadyPicture
  , recommendations := generateRecommendations courtReadyPicture
  , nextSteps := generateNextSteps courtReadyPicture }

/-- The spec's edge-compatibility rule table, written as the disjunction of
its listed cases (the listing order mirrors the source's first-match-wins
check order, and every matched case yields `true`, so the disjunction is the
intended reading): corner-edge, edge-interior, bridge-anything,
keystone-(complexity at least 7), interior-interior, temporal direction,
causal direction with complexity gap at most 2; everything else is
incompatible. -/
def specShapesCanConnect (shape1 shape2 : ComponentShape)
    (direction : Direction) : Bool :=
  (shape1.topology == .corner && shape2.topology == .edge)
  || (shape1.topology == .edge && shape2.topology == .interior)
  || (shape1.topology == .bridge || shape2.topology == .bridge)
  || (shape1.topology == .keystone && decide (7 ≤ shape2.complexity))
  || (shape1.topology == .interior && shape2.topology == .interior)
  || direction == .temporal
  || (direction == .causal && decide (|shape1.complexity - shape2.complexity| ≤ 2))

/-- Occupancy of a coordinate by a (possibly placed) component: its position
agrees with the given location on the x, y and z axes. -/
def occupiesCoordinate (other : JigsawComponent)
    (location : ComponentPosition) : Bool :=
  match other.position with
  | some p => p.x == location.x && p.y == location.y && p.z == location.z
  | none => false

/-- Modelled from the spec: the gap condition claimed for `identifyGaps` —
an edge with a non-empty `compatibleWith` set whose adjacent coordinate in
the edge's direction is not occupied by any placed component.  (The source's
`identifyGaps` never inspects coordinates; this definition exists to be
compared against it.) -/
def specGapCondition (placedComponents : List JigsawComponent)
    (component : JigsawComponent) (edge : ComponentEdge) : Bool :=
  !edge.compatibleWith.isEmpty
  && !(placedComponents.any fun other =>
        occupiesCoordinate other (calculateAdjacentPosition component edge.direction))

/-- Modelled from the spec: how many gaps the spec's occupancy-based rule
would emit for a picture. -/
def specGapCount (picture : Picture) : Nat :=
  (picture.placedComponents.map fun component =>
    (component.edges.filter
      (specGapCondition picture.placedComponents component)).length).sum

/-- Concrete environment used for closed evaluations: simple injective id
supplies, identity hash stand-ins and a fixed clock.  (Claims that depend on
properties of these functions quantify over the environment instead.) -/
def sampleEnv : JSEnv :=
  { now := ⟨1000000000000, 2001⟩
  , sha256 := fun s => s
  , sha512 := fun s => s
  , md5 := fun s => s
  , uuidTF := "T"
  , uuidJC := fun n => toString n
  , uuidPic := "P"
  , uuidGap := fun n => toString n
  , uuidConc := fun n => toString n
  , showDate := fun d => toString d.ms
  , showNum := fun _ => "n"
  , toFixed1 := fun _ => "n"
  , toFixedOpt1 := fun _ => "n"
  , showOptNum := fun _ => "n"
  , jsonProv := fun _ => "p"
  , jsonFragment := fun _ => "f"
  , jsonShape := fun _ => "s"
  , jsonFragShapeNow := fun _ _ => "h"
  , jsonPicture := fun _ => "x"
  , actionable := fun _ => false }

/-- Concrete CVK 1100 engine instance. -/
def cvkSampleEngine : CVK1100Engine := ⟨"CVK1100-E"⟩

/-- Concrete Jigsaw Protocol engine instance. -/
def jigsawSampleEngine : JigsawProtocolEngine := ⟨"JIGSAW-E"⟩

/-- An independently verified provenance record. -/
def sampleProvenance : ProvenanceRecord :=
  ⟨⟨0, 2000⟩, "src", "collected", "handler", true⟩

/-- A raw input whose provenance chain holds 20 independently verified
entries; the external-corroboration truth check then scores 20 × 20 = 400,
inflating the weighted confidence past 100. -/
def overCorroboratedInput : RawInput :=
  { id := "INPUT-1"
  , source := "S"
  , sourceType := .financial_record
  , content := "abcdefghijklmnopqrst"
  , timestamp := ⟨0, 2000⟩
  , jurisdiction := .IE
  , provenance := List.replicate 20 sampleProvenance }

/-- A fraud case context covering `overCorroboratedInput`. -/
def fraudCaseContext : CaseContext :=
  { caseId := "CASE-F"
  , caseType := "fraud"
  , startDate := ⟨-1, 1999⟩
  , jurisdictions := [.IE]
  , subjects := []
  , keywords := [] }

/-- A verified financial-trace fragment (interior topology, so it is
edge-compatible with every other interior fragment in all directions). -/
def sampleFragment (i : String) : TruthFragment :=
  { id := i
  , type := .financial_trace
  , content := "c" ++ i
  , source := "s"
  , verificationLevel := 9
  , confidence := 95
  , timestamp := ⟨0, 2000⟩
  , jurisdiction := .IE
  , chainOfCustody := []
  , isReal := true
  , isTrue := true
  , isNeeded := true }

/-- Jigsaw run on three mutually compatible fragments. -/
def sampleThreeRun : JigsawResult :=
  processFragments jigsawSampleEngine sampleEnv
    [sampleFragment "A", sampleFragment "B", sampleFragment "C"]
    "CASE-3" .fraud "Three-fragment case"

/-- Jigsaw run on two fragments. -/
def samplePairRun : JigsawResult :=
  processFragments jigsawSampleEngine sampleEnv
    [sampleFragment "A", sampleFragment "B"] "CASE-2" .fraud
    "Two-fragment case"

/-- Jigsaw run on one fragment. -/
def sampleSingleRun : JigsawResult :=
  processFragments jigsawSampleEngine sampleEnv [sampleFragment "A"] "CASE-1"
    .fraud "One-fragment case"

/-- Jigsaw run on the empty fragment batch. -/
def sampleEmptyRun : JigsawResult :=
  processFragments jigsawSampleEngine sampleEnv [] "CASE-0" .fraud
    "Empty case"

/-- A placed component sitting at the origin whose single north edge is
compatible with component `B`. -/
def gapComponentA : JigsawComponent :=
  { id := "A"
  , fragmentId := "FA"
  , shape := { topology := .interior, complexity := 10, symmetry := false
             , uniqueIdentifier := "UA" }
  , edges := [ { direction := .north, pattern := "PA"
               , compatibleWith := ["B"], incompatibleWith := []
               , strength := 90 } ]
  , weight := 99
  , position := some ⟨0, 0, 0, 0, 100⟩
  , locked := true
  , hash := "HA"
  , compressionRatio := some 1
  , engineeringSignature := "SA" }

/-- A placed component far from `A` (at (5,5,5), nowhere adjacent to it). -/
def gapComponentB : JigsawComponent :=
  { id := "B"
  , fragmentId := "FB"
  , shape := { topology := .interior, complexity := 10, symmetry := false
             , uniqueIdentifier := "UB" }
  , edges := []
  , weight := 80
  , position := some ⟨5, 5, 5, 0, 90⟩
  , locked := true
  , hash := "HB"
  , compressionRatio := some 1
  , engineeringSignature := "SB" }

/-- An assembled picture in which `A`'s north edge is id-compatible with the
placed component `B`, yet no component occupies the coordinate north of `A`.
The same configuration arises in ordinary pipeline runs: a component is
placed adjacent to only its best-scoring neighbor while remaining
id-compatible with every other placed component. -/
def gapPicture : Picture :=
  { id := "PIC-G"
  , caseId := "CASE-G"
  , caseType := .fraud
  , title := "Gap case"
  , components := [gapComponentA, gapComponentB]
  , placedComponents := [gapComponentA, gapComponentB]
  , unplacedComponents := []
  , completionPercentage := some 100
  , gaps := []
  , conclusions := []
  , reconstructedTruth := ""
  , courtReady := false
  , humanReviewRequired := false
  , hash := ""
  , createdAt := ⟨0, 2000⟩
  , updatedAt := ⟨0, 2000⟩ }

theorem jsSortInsert_perm (le : α → α → Bool) (a : α) (l : List α) :
    (jsSortInsert le a l).Perm (a :: l) := by
  induction l with
  | nil => simp [jsSortInsert]
  | cons b t ih =>
    simp only [jsSortInsert]
    by_cases h : le a b = true
    · simp [h]
    · simp only [h, if_neg, Bool.false_eq_true, not_false_eq_true, if_false]
      exact ((ih.cons b).trans (List.Perm.swap a b t)).symm.symm

theorem jsSort_perm (le : α → α → Bool) (l : List α) :
    (jsSort le l).Perm l := by
  induction l with
  | nil => simp [jsSort]
  | cons a t ih =>
    exact (jsSortInsert_perm le a (jsSort le t)).trans (ih.cons a)

theorem rejected_flag_iff (a b c : Bool) (p : Prop) [Decidable p] :
    ((!a || !b || !c || decide p) = true) ↔
      (a = false ∨ b = false ∨ c = false ∨ p) := by
  cases a <;> cases b <;> cases c <;> by_cases h : p <;> simp [h]

/-- Claim C2: `verifyInput` rejects exactly when the input fails the reality,
truth or necessity determination or its confidence is below 50, and it
carries a fragment exactly when it is not rejected. -/
theorem verifyInput_rejection_rule (env : JSEnv) (self : CVK1100Engine)
    (input : RawInput) (context : CaseContext) :
    ((verifyInput env self input context).rejected = true ↔
      ((verifyInput env self input context).isReal = false
        ∨ (verifyInput env self input context).isTrue = false
        ∨ (verifyInput env self input context).isNeeded = false
        ∨ (verifyInput env self input context).confidence < 50))
    ∧ ((verifyInput env self input context).fragment = none ↔
        (verifyInput env self input context).rejected = true) := by
  simp only [verifyInput]
  constructor
  · exact rejected_flag_iff _ _ _ _
  · by_cases h :
      (!(performRealityChecks env input).all (·.passed)
          || !decide (70 ≤ ((performRealityChecks env input).map (·.confidence)).sum
              / ((performRealityChecks env input).length : ℚ)) : Bool) = true
      <;> split <;> simp_all

/-- Claim C9: the necessity stage always reports the input as needed (the
uniqueness check is hard-coded to `needed` with relevance 80), so no
rejection is ever categorized `not_needed`. -/
theorem verifyInput_isNeeded_always_true (env : JSEnv) (self : CVK1100Engine)
    (input : RawInput) (context : CaseContext) :
    (verifyInput env self input context).isNeeded = true
    ∧ categorizeRejection (verifyInput env self input context) ≠ "not_needed" := by
  have hneed : (verifyInput env self input context).isNeeded = true := by
    simp only [verifyInput, performNecessityChecks, List.any_cons, List.any_nil,
      Bool.true_and, Bool.or_eq_true, decide_eq_true_eq]
    exact Or.inr (Or.inl (by norm_num))
  refine ⟨hneed, ?_⟩
  unfold categorizeRejection
  rw [hneed]
  by_cases h1 : (verifyInput env self input context).isReal
    <;> by_cases h2 : (verifyInput env self input context).isTrue
    <;> simp [h1, h2]

/-- Claim C8: the shape fingerprint is a function of the fragment's id,
content and timestamp alone — independent of the engine instance (and its
random `engineId`) and of every other fragment field, given the same hash
and date-rendering semantics. -/
theorem shapeFingerprint_engine_independent (env1 env2 : JSEnv)
    (self1 self2 : JigsawProtocolEngine) (f g : TruthFragment)
    (hsha : env1.sha256 = env2.sha256) (hdate : env1.showDate = env2.showDate)
    (hid : f.id = g.id) (hcontent : f.content = g.content)
    (hts : f.timestamp = g.timestamp) :
    (generateShape self1 env1 f).uniqueIdentifier
      = (generateShape self2 env2 g).uniqueIdentifier := by
  simp [generateShape, hsha, hdate, hid, hcontent, hts]

/-- Claim C6: the source's `shapesCanConnect` coincides with the spec's rule
table (`specShapesCanConnect`) on every pair of shapes and direction. -/
theorem shapesCanConnect_matches_rule_table (shape1 shape2 : ComponentShape)
    (direction : Direction) :
    shapesCanConnect shape1 shape2 direction
      = specShapesCanConnect shape1 shape2 direction := by
  cases h1 : shape1.topology <;> cases h2 : shape2.topology
    <;> cases direction
    <;> simp +decide [shapesCanConnect, specShapesCanConnect, h1, h2, beq_eq_decide]

theorem assembleLoop_iterations_le (fuel : Nat) :
    ∀ placed unplaced,
      (assembleLoop fuel placed unplaced).2.2 ≤ fuel := by
  induction fuel with
  | zero => intro placed unplaced; simp [assembleLoop]
  | succ n ih =>
    intro placed unplaced
    cases unplaced with
    | nil => simp [assembleLoop]
    | cons component rest =>
      cases h : findBestPosition component placed with
      | some position =>
        simp only [assembleLoop, h]
        exact Nat.succ_le_succ (ih _ _)
      | none =>
        simp only [assembleLoop, h]
        exact Nat.succ_le_succ (ih _ _)

theorem assembleLoop_ids_perm (fuel : Nat) :
    ∀ placed unplaced,
      ((assembleLoop fuel placed unplaced).1.map (·.id)
        ++ (assembleLoop fuel placed unplaced).2.1.map (·.id)).Perm
      (placed.map (·.id) ++ unplaced.map (·.id)) := by
  induction fuel with
  | zero => intro placed unplaced; simp [assembleLoop]
  | succ n ih =>
    intro placed unplaced
    cases unplaced with
    | nil => simp [assembleLoop]
    | cons component rest =>
      cases h : findBestPosition component placed with
      | some position =>
        simp only [assembleLoop, h]
        have h2 := ih
          (placed ++ [{ component with position := some position, locked := true }])
          rest
        simp only [List.map_append, List.append_assoc] at h2
        simp only [List.map_cons, List.singleton_append]
        exact h2
      | none =>
        simp only [assembleLoop, h]
        refine (ih placed (rest ++ [component])).trans ?_
        refine List.Perm.append_left _ ?_
        simp only [List.map_append, List.map_cons, List.map_nil]
        exact List.perm_append_singleton (component.id) (rest.map (·.id))

theorem assembleLoop_unplaced_mem (fuel : Nat) :
    ∀ placed unplaced c,
      c ∈ (assembleLoop fuel placed unplaced).2.1 → c ∈ unplaced := by
  induction fuel with
  | zero => intro placed unplaced c; simp [assembleLoop]
  | succ n ih =>
    intro placed unplaced c
    cases unplaced with
    | nil => simp [assembleLoop]
    | cons component rest =>
      cases h : findBestPosition component placed with
      | some position =>
        simp only [assembleLoop, h]
        intro hc
        exact List.mem_cons_of_mem _ (ih _ _ _ hc)
      | none =>
        simp only [assembleLoop, h]
        intro hc
        rcases List.mem_append.mp (ih _ _ _ hc) with h1 | h1
        · exact List.mem_cons_of_mem _ h1
        · simp only [List.mem_singleton] at h1
          simp [h1]

/-- Claim C7: the assembly loop runs at most `unplacedCount * 10` iterations
(the hard retry budget), and every component left unplaced when the loop
stops is one of the originally unplaced components, returned unchanged in
the picture's unplaced list. -/
theorem assemblePicture_retry_budget (pic : Picture) :
    assembleIterations pic ≤ pic.unplacedComponents.length * 10
    ∧ ∀ c ∈ (assemblePicture pic).unplacedComponents,
        c ∈ pic.unplacedComponents := by
  constructor
  · exact assembleLoop_iterations_le _ _ _
  · intro c hc
    simp only [assemblePicture] at hc
    exact (jsSort_perm weightDescending pic.unplacedComponents).mem_iff.mp
      (assembleLoop_unplaced_mem _ _ _ _ hc)

theorem identifyGaps_placed (env : JSEnv) (pic : Picture) :
    (identifyGaps env pic).placedComponents = pic.placedComponents := rfl

theorem identifyGaps_unplaced (env : JSEnv) (pic : Picture) :
    (identifyGaps env pic).unplacedComponents = pic.unplacedComponents := rfl

theorem identifyGaps_components (env : JSEnv) (pic : Picture) :
    (identifyGaps env pic).components = pic.components := rfl

theorem identifyGaps_completion (env : JSEnv) (pic : Picture) :
    (identifyGaps env pic).completionPercentage = pic.completionPercentage := rfl

theorem drawConclusions_placed (env : JSEnv) (pic : Picture) :
    (drawConclusions env pic).placedComponents = pic.placedComponents := rfl

theorem drawConclusions_unplaced (env : JSEnv) (pic : Picture) :
    (drawConclusions env pic).unplacedComponents = pic.unplacedComponents := rfl

theorem drawConclusions_components (env : JSEnv) (pic : Picture) :
    (drawConclusions env pic).components = pic.components := rfl

theorem drawConclusions_completion (env : JSEnv) (pic : Picture) :
    (drawConclusions env pic).completionPercentage = pic.completionPercentage := rfl

theorem assessCourtReadiness_placed (env : JSEnv) (pic : Picture) :
    (assessCourtReadiness env pic).placedComponents = pic.placedComponents := rfl

theorem assessCourtReadiness_unplaced (env : JSEnv) (pic : Picture) :
    (assessCourtReadiness env pic).unplacedComponents = pic.unplacedComponents := rfl

theorem assessCourtReadiness_components (env : JSEnv) (pic : Picture) :
    (assessCourtReadiness env pic).components = pic.components := rfl

theorem assessCourtReadiness_completion (env : JSEnv) (pic : Picture) :
    (assessCourtReadiness env pic).completionPercentage
      = pic.completionPercentage := rfl

theorem compressFragments_length (self : JigsawProtocolEngine) (env : JSEnv)
    (fragments : List TruthFragment) :
    (compressFragments self env fragments).length = fragments.length := by
  simp [compressFragments, List.enum_length]

theorem enumFrom_compress_fragmentIds (self : JigsawProtocolEngine)
    (env : JSEnv) (l : List TruthFragment) :
    ∀ k : Nat,
      ((List.enumFrom k l).map fun p => compressFragment self env p.1 p.2).map
        (·.fragmentId) = l.map (·.id) := by
  induction l with
  | nil => intro k; simp
  | cons a t ih =>
    intro k
    simp only [List.enumFrom_cons, List.map_cons, ih]
    rfl

theorem compressFragments_fragmentIds (self : JigsawProtocolEngine)
    (env : JSEnv) (fragments : List TruthFragment) :
    (compressFragments self env fragments).map (·.fragmentId)
      = fragments.map (·.id) :=
  enumFrom_compress_fragmentIds self env fragments 0

theorem enumFrom_engineer_ids (env : JSEnv) (comps : List JigsawComponent)
    (l : List JigsawComponent) :
    ∀ k : Nat,
      ((List.enumFrom k l).map fun p =>
        { p.2 with edges := calculateEdges env p.2 comps p.1 }).map (·.id)
      = l.map (·.id) := by
  induction l with
  | nil => intro k; simp
  | cons a t ih =>
    intro k
    simp only [List.enumFrom_cons, List.map_cons, ih]

theorem engineerEdges_ids (env : JSEnv) (comps : List JigsawComponent) :
    (engineerEdges env comps).map (·.id) = comps.map (·.id) :=
  enumFrom_engineer_ids env comps comps 0

theorem engineerEdges_length (env : JSEnv) (comps : List JigsawComponent) :
    (engineerEdges env comps).length = comps.length := by
  have h := congrArg List.length (engineerEdges_ids env comps)
  simpa using h

theorem assemblePicture_ids_partition (pic : Picture) :
    ((assemblePicture pic).placedComponents.map (·.id)
      ++ (assemblePicture pic).unplacedComponents.map (·.id)).Perm
    (pic.placedComponents.map (·.id) ++ pic.unplacedComponents.map (·.id)) := by
  simp only [assemblePicture]
  exact (assembleLoop_ids_perm _ _ _).trans
    (List.Perm.append_left _
      ((jsSort_perm weightDescending pic.unplacedComponents).map _))

theorem assemblePicture_components_ids (pic : Picture) :
    (assemblePicture pic).components.map (·.id) = pic.components.map (·.id) := by
  simp only [assemblePicture, List.map_map]
  refine List.map_congr_left ?_
  intro c _
  simp only [Function.comp_apply]
  cases h : (assembleLoop (pic.unplacedComponents.length * 10)
      pic.placedComponents
      (jsSort weightDescending pic.unplacedComponents)).1.find?
      (fun p => p.id == c.id) with
  | none => simp [h]
  | some p =>
    have hpc := @List.find?_some _ (fun q => q.id == c.id) p _ h
    simp [h, beq_iff_eq.mp hpc]

/-- Claim C1: `processFragments` creates exactly one component per fragment
passing the second gate (`isReal` and `isTrue` and `isNeeded` and
verification level at least 5), and the created components reference
exactly those fragments, in order; fragments failing the gate yield no
component. -/
theorem processFragments_gated_one_to_one (self : JigsawProtocolEngine)
    (env : JSEnv) (fragments : List TruthFragment) (caseId : String)
    (caseType : CaseType) (caseTitle : String) :
    (processFragments self env fragments caseId caseType caseTitle).componentsCreated
      = (fragments.filter fun f =>
          f.isReal && f.isTrue && f.isNeeded && decide (5 ≤ f.verificationLevel)).length
    ∧ (compressFragments self env (filterVerifiedFragments fragments)).map
        (·.fragmentId)
      = (fragments.filter fun f =>
          f.isReal && f.isTrue && f.isNeeded && decide (5 ≤ f.verificationLevel)).map
        (·.id) := by
  constructor
  · show (compressFragments self env (filterVerifiedFragments fragments)).length = _
    rw [compressFragments_length]
    rfl
  · rw [compressFragments_fragmentIds]
    rfl

/-- Claim C10: in the picture returned by `processFragments`, the placed and
unplaced lists partition the component list: together they enumerate the
component identifiers exactly (as a permutation), their lengths sum to the
component count, and — whenever the component identifiers are distinct, as
they are for distinct `randomUUID` draws — no identifier is both placed and
unplaced. -/
theorem processFragments_placement_partition (self : JigsawProtocolEngine)
    (env : JSEnv) (fragments : List TruthFragment) (caseId : String)
    (caseType : CaseType) (caseTitle : String)
    (h : ((processFragments self env fragments caseId caseType
        caseTitle).picture.components.map (·.id)).Nodup) :
    (((processFragments self env fragments caseId caseType
        caseTitle).picture.placedComponents.map (·.id))
      ++ ((processFragments self env fragments caseId caseType
        caseTitle).picture.unplacedComponents.map (·.id))).Perm
      ((processFragments self env fragments caseId caseType
        caseTitle).picture.components.map (·.id))
    ∧ (processFragments self env fragments caseId caseType
        caseTitle).picture.placedComponents.length
        + (processFragments self env fragments caseId caseType
            caseTitle).picture.unplacedComponents.length
      = (processFragments self env fragments caseId caseType
          caseTitle).picture.components.length
    ∧ ∀ i ∈ (processFragments self env fragments caseId caseType
          caseTitle).picture.placedComponents.map (·.id),
        i ∉ (processFragments self env fragments caseId caseType
          caseTitle).picture.unplacedComponents.map (·.id) := by
  have hinitP : (initializePicture env caseId caseType caseTitle
      (engineerEdges env (compressFragments self env
        (filterVerifiedFragments fragments)))).placedComponents = [] := rfl
  have hinitU : (initializePicture env caseId caseType caseTitle
      (engineerEdges env (compressFragments self env
        (filterVerifiedFragments fragments)))).unplacedComponents
      = engineerEdges env (compressFragments self env
        (filterVerifiedFragments fragments)) := rfl
  have hinitC : (initializePicture env caseId caseType caseTitle
      (engineerEdges env (compressFragments self env
        (filterVerifiedFragments fragments)))).components
      = engineerEdges env (compressFragments self env
        (filterVerifiedFragments fragments)) := rfl
  have hperm0 := assemblePicture_ids_partition
    (initializePicture env caseId caseType caseTitle
      (engineerEdges env (compressFragments self env
        (filterVerifiedFragments fragments))))
  rw [hinitP, hinitU] at hperm0
  simp only [List.map_nil, List.nil_append] at hperm0
  have hcids := assemblePicture_components_ids
    (initializePicture env caseId caseType caseTitle
      (engineerEdges env (compressFragments self env
        (filterVerifiedFragments fragments))))
  rw [hinitC] at hcids
  have hperm :
      (((assemblePicture (initializePicture env caseId caseType caseTitle
          (engineerEdges env (compressFragments self env
            (filterVerifiedFragments fragments))))).placedComponents.map (·.id))
        ++ ((assemblePicture (initializePicture env caseId caseType caseTitle
          (engineerEdges env (compressFragments self env
            (filterVerifiedFragments fragments))))).unplacedComponents.map (·.id))).Perm
        ((assemblePicture (initializePicture env caseId caseType caseTitle
          (engineerEdges env (compressFragments self env
            (filterVerifiedFragments fragments))))).components.map (·.id)) := by
    rw [hcids]
    exact hperm0
  refine ⟨hperm, ?_, ?_⟩
  · have h2 := hperm.length_eq
    simp only [List.length_append, List.length_map] at h2
    exact h2
  · have hnodup := hperm.symm.nodup h
    have hdisj := (List.nodup_append.mp hnodup).2.2
    intro i hi hmem
    exact hdisj hi hmem

/-- Claim C4 (amended): for every fragment batch whose gate-passing subset
is non-empty, the completion percentage of the resulting picture is the
finite number `placed / total * 100` and lies in `[0, 100]`.  (For an empty
batch the source computes `0 / 0`, which is `NaN`; see the counterexample.) -/
theorem completionPercentage_bounds (self : JigsawProtocolEngine)
    (env : JSEnv) (fragments : List TruthFragment) (caseId : String)
    (caseType : CaseType) (caseTitle : String)
    (h : filterVerifiedFragments fragments ≠ []) :
    (processFragments self env fragments caseId caseType
        caseTitle).picture.completionPercentage
      = some ((((processFragments self env fragments caseId caseType
            caseTitle).picture.placedComponents.length : ℚ)
          / ((processFragments self env fragments caseId caseType
            caseTitle).picture.components.length : ℚ)) * 100)
    ∧ 0 ≤ (((processFragments self env fragments caseId caseType
            caseTitle).picture.placedComponents.length : ℚ)
          / ((processFragments self env fragments caseId caseType
            caseTitle).picture.components.length : ℚ)) * 100
    ∧ (((processFragments self env fragments caseId caseType
            caseTitle).picture.placedComponents.length : ℚ)
          / ((processFragments self env fragments caseId caseType
            caseTitle).picture.components.length : ℚ)) * 100 ≤ 100 := by
  have hinitC : (initializePicture env caseId caseType caseTitle
      (engineerEdges env (compressFragments self env
        (filterVerifiedFragments fragments)))).components
      = engineerEdges env (compressFragments self env
        (filterVerifiedFragments fragments)) := rfl
  have hinitP : (initializePicture env caseId caseType caseTitle
      (engineerEdges env (compressFragments self env
        (filterVerifiedFragments fragments)))).placedComponents = [] := rfl
  have hinitU : (initializePicture env caseId caseType caseTitle
      (engineerEdges env (compressFragments self env
        (filterVerifiedFragments fragments)))).unplacedComponents
      = engineerEdges env (compressFragments self env
        (filterVerifiedFragments fragments)) := rfl
  have hlen : (engineerEdges env (compressFragments self env
      (filterVerifiedFragments fragments))).length
      = (filterVerifiedFragments fragments).length := by
    rw [engineerEdges_length, compressFragments_length]
  have hpos : 0 < (engineerEdges env (compressFragments self env
      (filterVerifiedFragments fragments))).length := by
    rw [hlen]
    exact List.length_pos.mpr h
  have hclen : (processFragments self env fragments caseId caseType
      caseTitle).picture.components.length
      = (engineerEdges env (compressFragments self env
        (filterVerifiedFragments fragments))).length := by
    have h1 := congrArg List.length (assemblePicture_components_ids
      (initializePicture env caseId caseType caseTitle
        (engineerEdges env (compressFragments self env
          (filterVerifiedFragments fragments)))))
    rw [hinitC] at h1
    simp only [List.length_map] at h1
    exact h1
  have hperm0 := assemblePicture_ids_partition
    (initializePicture env caseId caseType caseTitle
      (engineerEdges env (compressFragments self env
        (filterVerifiedFragments fragments))))
  rw [hinitP, hinitU] at hperm0
  simp only [List.map_nil, List.nil_append] at hperm0
  have hsum : (processFragments self env fragments caseId caseType
      caseTitle).picture.placedComponents.length
      + (processFragments self env fragments caseId caseType
        caseTitle).picture.unplacedComponents.length
      = (engineerEdges env (compressFragments self env
        (filterVerifiedFragments fragments))).length := by
    have h2 := hperm0.length_eq
    simp only [List.length_append, List.length_map] at h2
    exact h2
  have hple : (processFragments self env fragments caseId caseType
      caseTitle).picture.placedComponents.length
      ≤ (processFragments self env fragments caseId caseType
        caseTitle).picture.components.length := by
    rw [hclen, ← hsum]
    exact Nat.le_add_right _ _
  have hqpos : (0 : ℚ) < ((processFragments self env fragments caseId caseType
      caseTitle).picture.components.length : ℚ) := by
    rw [hclen]
    exact_mod_cast hpos
  have hq : ((engineerEdges env (compressFragments self env
      (filterVerifiedFragments fragments))).length : ℚ) ≠ 0 := by
    exact_mod_cast Nat.pos_iff_ne_zero.mp hpos
  have hcp : (processFragments self env fragments caseId caseType
      caseTitle).picture.completionPercentage
      = (jsDiv ((processFragments self env fragments caseId caseType
          caseTitle).picture.placedComponents.length : ℚ)
        ((engineerEdges env (compressFragments self env
          (filterVerifiedFragments fragments))).length : ℚ)).map (· * 100) := rfl
  refine ⟨?_, ?_, ?_⟩
  · rw [hcp, jsDiv, if_neg hq, Option.map_some', hclen]
  · positivity
  · have hdiv : (((processFragments self env fragments caseId caseType
        caseTitle).picture.placedComponents.length : ℚ)
        / ((processFragments self env fragments caseId caseType
          caseTitle).picture.components.length : ℚ)) ≤ 1 :=
      (div_le_one hqpos).mpr (by exact_mod_cast hple)
    nlinarith [hdiv]

theorem gapCondition_eq_false_iff (placed : List JigsawComponent)
    (c : JigsawComponent) (e : ComponentEdge) :
    gapCondition placed c e = false ↔
      (e.compatibleWith ≠ [] →
        ∃ o ∈ placed, o.id ≠ c.id ∧ o.id ∈ e.compatibleWith) := by
  simp only [gapCondition, Bool.and_eq_false_iff, Bool.not_eq_false',
    List.any_eq_true, Bool.and_eq_true, bne_iff_ne, ne_eq,
    decide_eq_false_iff_not, not_lt, Nat.le_zero, List.length_eq_zero]
  constructor
  · rintro (h | h)
    · intro _
      obtain ⟨o, ho, hne, hmem⟩ := h
      exact ⟨o, ho, hne, by simpa [List.elem_iff] using hmem⟩
    · intro hne
      exact absurd h hne
  · intro h
    by_cases hne : e.compatibleWith = []
    · exact Or.inr hne
    · obtain ⟨o, ho, hneid, hmem⟩ := h hne
      exact Or.inl ⟨o, ho, hneid, by simpa [List.elem_iff] using hmem⟩

/-- Claim C5 (amended): `identifyGaps` emits one gap per placed component's
edge whose `compatibleWith` set is non-empty but contains no other placed
component's identifier — placement coordinates are never consulted — and
therefore the gap count is zero exactly when every such non-empty set
contains some other placed component's identifier. -/
theorem identifyGaps_membership_rule (env : JSEnv) (pic : Picture) :
    (identifyGaps env pic).gaps.length
      = (pic.placedComponents.map fun c =>
          (c.edges.filter (gapCondition pic.placedComponents c)).length).sum
    ∧ ((identifyGaps env pic).gaps.length = 0 ↔
        ∀ c ∈ pic.placedComponents, ∀ e ∈ c.edges,
          e.compatibleWith ≠ [] →
            ∃ o ∈ pic.placedComponents, o.id ≠ c.id ∧ o.id ∈ e.compatibleWith) := by
  have hlen : (identifyGaps env pic).gaps.length
      = (pic.placedComponents.map fun c =>
          (c.edges.filter (gapCondition pic.placedComponents c)).length).sum := by
    simp only [identifyGaps, List.length_map, List.enum_length,
      List.length_flatMap]
    refine congrArg List.sum (List.map_congr_left ?_)
    intro c _
    simp [Function.comp]
  refine ⟨hlen, ?_⟩
  rw [hlen, List.sum_eq_zero_iff]
  simp only [List.forall_mem_map, List.length_eq_zero, List.filter_eq_nil_iff,
    Bool.not_eq_true]
  constructor
  · intro h c hc e he
    exact (gapCondition_eq_false_iff pic.placedComponents c e).mp (h c hc e he)
  · intro h c hc e he
    exact (gapCondition_eq_false_iff pic.placedComponents c e).mpr (h c hc e he)

theorem enumFrom_compress_ids (self : JigsawProtocolEngine) (env : JSEnv)
    (l : List TruthFragment) :
    ∀ k : Nat,
      ((List.enumFrom k l).map fun p => compressFragment self env p.1 p.2).map
        (·.id)
      = (List.enumFrom k l).map fun p => "JC-" ++ env.uuidJC p.1 := by
  induction l with
  | nil => intro k; simp
  | cons a t ih =>
    intro k
    simp only [List.enumFrom_cons, List.map_cons, ih]
    rfl

theorem compressFragments_ids (self : JigsawProtocolEngine) (env : JSEnv)
    (fragments : List TruthFragment) :
    (compressFragments self env fragments).map (·.id)
      = fragments.enum.map fun p => "JC-" ++ env.uuidJC p.1 :=
  enumFrom_compress_ids self env fragments 0

/-- Claim C3: the confidence computed by `verifyInput` escapes the
documented `[0, 100]` range.  On an input with 20 independently verified
provenance entries the external-corroboration truth check contributes
20 × 20 = 400, pushing the weighted average above 100 — and the input is
still accepted, so the out-of-range confidence is copied into the produced
fragment (whose declared range is 0-100%). -/
theorem verifyInput_confidence_exceeds_100 :
    100 < (verifyInput sampleEnv cvkSampleEngine overCorroboratedInput
        fraudCaseContext).confidence
    ∧ (verifyInput sampleEnv cvkSampleEngine overCorroboratedInput
        fraudCaseContext).rejected = false := by
  constructor
  · norm_num [verifyInput, performRealityChecks, performTruthChecks,
      performNecessityChecks, performCrossReferences, calculateRelevance,
      relevantSourceTypes, isActionableIntelligence, calculateConfidence,
      sampleEnv, cvkSampleEngine, overCorroboratedInput, fraudCaseContext,
      sampleProvenance, validSourceTypes, List.replicate, min_def,
      (show "abcdefghijklmnopqrst".length = 20 from rfl),
      (show ("S" = "") = False from by simp)]
  · norm_num [verifyInput, performRealityChecks, performTruthChecks,
      performNecessityChecks, performCrossReferences, calculateRelevance,
      relevantSourceTypes, isActionableIntelligence, calculateConfidence,
      sampleEnv, cvkSampleEngine, overCorroboratedInput, fraudCaseContext,
      sampleProvenance, validSourceTypes, List.replicate, min_def,
      (show "abcdefghijklmnopqrst".length = 20 from rfl),
      (show ("S" = "") = False from by simp)]

/-- Claim C4 counterexample: on the empty fragment batch the source computes
`0 / 0 × 100`, so the completion percentage is `NaN` (modelled `none`) — it
is not a number satisfying the claimed bounds. -/
theorem completionPercentage_nan_on_empty :
    sampleEmptyRun.picture.completionPercentage = none := by decide

/-- Witness for the amended claim C4 at a concrete one-fragment batch. -/
theorem completionPercentage_bounds_witness :
    sampleSingleRun.picture.completionPercentage
      = some (((sampleSingleRun.picture.placedComponents.length : ℚ)
          / (sampleSingleRun.picture.components.length : ℚ)) * 100)
    ∧ 0 ≤ ((sampleSingleRun.picture.placedComponents.length : ℚ)
          / (sampleSingleRun.picture.components.length : ℚ)) * 100
    ∧ ((sampleSingleRun.picture.placedComponents.length : ℚ)
          / (sampleSingleRun.picture.components.length : ℚ)) * 100 ≤ 100 :=
  completionPercentage_bounds jigsawSampleEngine sampleEnv [sampleFragment "A"]
    "CASE-1" .fraud "One-fragment case" (by decide)

/-- Claim C5 counterexample: in `gapPicture` the source emits no gap at all
(`B` is placed and appears in `A`'s `compatibleWith`), yet no placed
component occupies the coordinate north of `A`, where the spec's
occupancy-based rule demands a gap. -/
theorem identifyGaps_coordinate_rule_counterexample :
    (identifyGaps sampleEnv gapPicture).gaps.length = 0
    ∧ specGapCount gapPicture ≠ 0 := by
  constructor
  · decide
  · norm_num [specGapCount, specGapCondition, occupiesCoordinate,
      calculateAdjacentPosition, gapPicture, gapComponentA, gapComponentB,
      beq_eq_decide]

/-- Witness for claim C8 at a concrete fragment and two engine instances. -/
theorem shapeFingerprint_engine_independent_witness :
    (generateShape ⟨"JIGSAW-1"⟩ sampleEnv (sampleFragment "A")).uniqueIdentifier
      = (generateShape ⟨"JIGSAW-2"⟩ sampleEnv
          (sampleFragment "A")).uniqueIdentifier :=
  shapeFingerprint_engine_independent sampleEnv sampleEnv ⟨"JIGSAW-1"⟩
    ⟨"JIGSAW-2"⟩ (sampleFragment "A") (sampleFragment "A") rfl rfl rfl rfl rfl

/-- Witness for claim C10 at a concrete two-fragment batch (the component
identifiers evaluate to `JC-0` and `JC-1`, which are distinct). -/
theorem processFragments_placement_partition_witness :
    ((samplePairRun.picture.placedComponents.map (·.id))
      ++ (samplePairRun.picture.unplacedComponents.map (·.id))).Perm
      (samplePairRun.picture.components.map (·.id))
    ∧ samplePairRun.picture.placedComponents.length
        + samplePairRun.picture.unplacedComponents.length
      = samplePairRun.picture.components.length
    ∧ ∀ i ∈ samplePairRun.picture.placedComponents.map (·.id),
        i ∉ samplePairRun.picture.unplacedComponents.map (·.id) :=
  processFragments_placement_partition jigsawSampleEngine sampleEnv
    [sampleFragment "A", sampleFragment "B"] "CASE-2" .fraud
    "Two-fragment case"
    (by
      have h2 := assemblePicture_components_ids
        (initializePicture sampleEnv "CASE-2" .fraud "Two-fragment case"
          (engineerEdges sampleEnv (compressFragments jigsawSampleEngine
            sampleEnv (filterVerifiedFragments
              [sampleFragment "A", sampleFragment "B"]))))
      rw [show (initializePicture sampleEnv "CASE-2" .fraud
          "Two-fragment case"
          (engineerEdges sampleEnv (compressFragments jigsawSampleEngine
            sampleEnv (filterVerifiedFragments
              [sampleFragment "A", sampleFragment "B"])))).components
        = engineerEdges sampleEnv (compressFragments jigsawSampleEngine
            sampleEnv (filterVerifiedFragments
              [sampleFragment "A", sampleFragment "B"])) from rfl,
        engineerEdges_ids, compressFragments_ids] at h2
      have h3 : ((processFragments jigsawSampleEngine sampleEnv
          [sampleFragment "A", sampleFragment "B"] "CASE-2" .fraud
          "Two-fragment case").picture.components.map (·.id))
          = (filterVerifiedFragments
              [sampleFragment "A", sampleFragment "B"]).enum.map
              fun p => "JC-" ++ sampleEnv.uuidJC p.1 := h2
      rw [h3]
      decide)
